import Mathlib

/-!
Verification of the ORB webhook trading bot (`src/main.py`, with the
auxiliary Discord paper-trading bot in `src/orb_discord_bot.py`) against its
natural-language specification.

The decision engine of `main.py`'s `tradingview_webhook` handler is embedded
as a pure Lean function.  Python floats are modelled as exact rationals
(`Rat`); the Alpaca broker is modelled as a record of the results the four
broker calls would return on this invocation (`Except.error` standing for a
raised exception); the Discord notification and HTTP transport are out of
scope, as the spec declares them thin I/O wrappers.
-/

namespace OrbBot

/-- Configuration constant `RISK_PER_TRADE = 0.005` from `main.py`. -/
def RISK_PER_TRADE : Rat := 5 / 1000

/-- Configuration constant `MAX_DAILY_LOSS_R = 2.0` from `main.py`. -/
def MAX_DAILY_LOSS_R : Rat := 2

/-- Configuration constant `MAX_TRADES_PER_DAY = 3` from `main.py`. -/
def MAX_TRADES_PER_DAY : Nat := 3

/-- Python `"/" in symbol`: the one-character substring test is character
membership. -/
def hasSlash (symbol : String) : Bool :=
  symbol.data.any (fun c => c == '/')

/-- Embedding of `symbol_for_positions` from `main.py`:
`symbol.replace("/", "") if "/" in symbol else symbol`.  Replacing every
occurrence of the single character `/` by the empty string is character
filtering. -/
def symbol_for_positions (symbol : String) : String :=
  if hasSlash symbol then ⟨symbol.data.filter (fun c => c != '/')⟩ else symbol

/-- Alpaca `TimeInForce` values used by the bot. -/
inductive TimeInForce where
  | day
  | gtc
deriving DecidableEq, Repr

/-- Embedding of `tif_for_symbol` from `main.py`: crypto symbols (containing
`/`) use GTC, all others use DAY. -/
def tif_for_symbol (symbol : String) : TimeInForce :=
  if hasSlash symbol then TimeInForce.gtc else TimeInForce.day

/-- Alpaca `OrderSide` values used by the bot. -/
inductive OrderSide where
  | buy
  | sell
deriving DecidableEq, Repr

/-- The module-level daily state of `main.py`: `current_day` (a UTC date,
`None` before the first reset, encoded as `Option Nat`), `daily_loss_r` and
`trade_count`. -/
structure Ledger where
  current_day : Option Nat
  daily_loss_r : Rat
  trade_count : Nat
deriving DecidableEq, Repr

/-- Embedding of `reset_daily_if_needed` from `main.py`: if the stored day
differs from today's UTC date, adopt today and zero both counters. -/
def reset_daily_if_needed (today : Nat) (st : Ledger) : Ledger :=
  if st.current_day ≠ some today then ⟨some today, 0, 0⟩ else st

/-- Abstraction of the dict produced by a successful `json.loads` on the
request body.  Each price field is `some v` exactly when
`float(data.get(key))` would succeed and yield the value `v`; it is `none`
when the key is absent or its value is unparsable (the code's
`TypeError`/`ValueError` path).  `event`/`symbol` are `none` when the key is
absent (so that `data.get(key, default)` takes the default); a non-string
JSON value there behaves like a string matching none of the handled event
names and is modelled as such.  `nonempty` is the Python truthiness of the
decoded dict (`if data:`). -/
structure JsonData where
  event : Option String
  symbol : Option String
  reason : Option String
  entryPrice : Option Rat
  orHigh : Option Rat
  orLow : Option Rat
  nonempty : Bool
deriving DecidableEq, Repr

/-- The code's price-extraction block: all three of
`float(data.get("entryPrice"))`, `float(data.get("orHigh"))`,
`float(data.get("orLow"))` must succeed, otherwise the exception handler
sets `entry_price = None` and the signal is treated as having no usable
prices. -/
def parsedPrices (d : JsonData) : Option (Rat × Rat × Rat) :=
  match d.entryPrice, d.orHigh, d.orLow with
  | some e, some h, some l => some (e, h, l)
  | _, _, _ => none

/-- The variables `event_type`, `symbol`, `reason`, `data` as they stand
after the parsing section of `tradingview_webhook`.  `data` is `some d`
exactly when the Python variable `data` is a truthy dict. -/
structure Signal where
  event : String
  symbol : String
  reason : Option String
  data : Option JsonData
deriving DecidableEq, Repr

/-- Scan for `n` as a contiguous run starting at any position of the second
list. -/
def infixAux (n : List Char) : List Char → Bool
  | [] => n.isEmpty
  | c :: rest => n.isPrefixOf (c :: rest) || infixAux n rest

/-- Python substring containment `needle in hay`. -/
def containsSubstring (hay needle : String) : Bool :=
  infixAux needle.data hay.data

/-- The legacy plain-text fallback of `tradingview_webhook`: scan the body
for the three marker substrings, in the source's order, defaulting to
`UNKNOWN` / `QQQ` when none matches.  No `reason` and no structured data is
produced on this path. -/
def legacySignal (body : String) : Signal :=
  if containsSubstring body "ORB_QQQ_ENTRY_LONG" then
    ⟨"ENTRY_LONG", "QQQ", none, none⟩
  else if containsSubstring body "ORB_QQQ_ENTRY_SHORT" then
    ⟨"ENTRY_SHORT", "QQQ", none, none⟩
  else if containsSubstring body "ORB_QQQ_EXIT" then
    ⟨"FINAL_EXIT", "QQQ", none, none⟩
  else
    ⟨"UNKNOWN", "QQQ", none, none⟩

/-- Python `body_text.strip().startswith("\x7b")`: after stripping
whitespace from both ends, the text starts with an opening brace exactly
when its first non-whitespace character is one. -/
def looksLikeJson (body : String) : Bool :=
  match body.data.dropWhile Char.isWhitespace with
  | [] => false
  | c :: _ => c == '\x7b'

/-- The parsing section of `tradingview_webhook`.  `jsonLoads` is the result
`json.loads(body_text)` would produce (`none` when it would raise
`JSONDecodeError`); the decode is attempted only when the trimmed body
starts with `\x7b`.  A falsy decoded dict (`if data:`) also falls through to
the legacy matching. -/
def parseBody (body : String) (jsonLoads : Option JsonData) : Signal :=
  let data : Option JsonData :=
    if looksLikeJson body then jsonLoads else none
  match data with
  | some d =>
      if d.nonempty then
        { event := d.event.getD "UNKNOWN"
          symbol := d.symbol.getD "QQQ"
          reason := d.reason
          data := some d }
      else legacySignal body
  | none => legacySignal body

/-- Result of the `client.get_open_position(pos_symbol)` call as the code
observes it: a position object (with the raw `qty` and `side` read off it),
a position-not-found exception, or any other failure.  The code's generic
`except` clause treats the last two identically. -/
inductive PosLookup where
  | found (qty : Rat) (side : String)
  | notFound (msg : String)
  | failure (msg : String)
deriving DecidableEq, Repr

/-- One invocation's broker behaviour: what each Alpaca call returns if the
engine makes it.  `Except.error m` models the call raising an exception with
message `m`.  `equity` is `float(str(account.equity))` of `get_account()`;
`submit` is the order id of `submit_order` (at most one submission happens
per invocation); `closePosition` is the repr of the `close_position`
response. -/
structure Broker where
  equity : Except String Rat
  openPosition : PosLookup
  submit : Except String String
  closePosition : Except String String

/-- The distinct `alpaca_result` message templates of
`tradingview_webhook`, with the data interpolated into each.  This is the
engine's decision detail. -/
inductive Detail where
  | noAction
  | blockedDailyLoss (lossR : Rat)
  | blockedMaxTrades (tc : Nat)
  | missingPriceData
  | invalidRiskPerUnit (rpu : Rat)
  | equityNonpositive (eq : Rat)
  | qtyNonpositive (qty : Rat)
  | orderPlaced (event symbol : String) (qty : Rat) (orderId : String) (tc : Nat)
  | noOpenPositionSize
  | partialExitDone (qty : Rat) (symbol side orderId : String)
  | partialExitError (symbol msg : String)
  | finalExitClosed (symbol closeSymbol resp : String)
  | finalExitError (symbol closeSymbol msg : String)
  | tradingError (msg : String)
deriving DecidableEq, Repr

/-- The spec's `DecisionOutcome.action` classification of each detail
message, following the taxonomy of spec section 7: guardrail and sizing
refusals are `BLOCKED`, caught broker failures are `ERROR`, successful
submissions and closes are `ORDER_PLACED`, and the untouched default is
`NONE`. -/
inductive Action where
  | NONE
  | ORDER_PLACED
  | BLOCKED
  | ERROR
deriving DecidableEq, Repr

/-- Classify a detail message as a spec-level action. -/
def Detail.action : Detail → Action
  | .noAction => .NONE
  | .blockedDailyLoss _ => .BLOCKED
  | .blockedMaxTrades _ => .BLOCKED
  | .missingPriceData => .BLOCKED
  | .invalidRiskPerUnit _ => .BLOCKED
  | .equityNonpositive _ => .BLOCKED
  | .qtyNonpositive _ => .BLOCKED
  | .orderPlaced _ _ _ _ _ => .ORDER_PLACED
  | .noOpenPositionSize => .BLOCKED
  | .partialExitDone _ _ _ _ => .ORDER_PLACED
  | .partialExitError _ _ => .ERROR
  | .finalExitClosed _ _ _ => .ORDER_PLACED
  | .finalExitError _ _ _ => .ERROR
  | .tradingError _ => .ERROR

/-- The caught exception message a detail carries, if any. -/
def Detail.errMsg : Detail → Option String
  | .partialExitError _ m => some m
  | .finalExitError _ _ m => some m
  | .tradingError m => some m
  | _ => none

/-- Whether the detail is the entry-order-placed message (the only path on
which `trade_count` is incremented). -/
def isEntryOrderPlaced : Detail → Bool
  | .orderPlaced _ _ _ _ _ => true
  | _ => false

/-- Whether the detail is one produced by the risk-sizing stage of the entry
block (everything after the guardrail gate): price validation, risk per
unit, the equity fetch, the quantity check, the submission, or a broker
failure caught on this path.  A detail of this kind shows the signal was
allowed to proceed to sizing. -/
def sizingStage : Detail → Bool
  | .missingPriceData => true
  | .invalidRiskPerUnit _ => true
  | .equityNonpositive _ => true
  | .qtyNonpositive _ => true
  | .orderPlaced _ _ _ _ _ => true
  | .tradingError _ => true
  | _ => false

/-- Python `str.lower()`, character by character. -/
def pyLower (s : String) : String :=
  ⟨s.data.map Char.toLower⟩

/-- A `submit_order` call: the `MarketOrderRequest` arguments. -/
structure Order where
  symbol : String
  qty : Rat
  side : OrderSide
  tif : TimeInForce
deriving DecidableEq, Repr

/-- Everything observable about one engine invocation: the ledger
afterwards, the `alpaca_result` detail, and the broker calls made
(`submit_order` requests, `get_open_position` symbols, `close_position`
symbols). -/
structure EngineResult where
  ledger : Ledger
  detail : Detail
  submits : List Order
  posLookups : List String
  closeCalls : List String
deriving DecidableEq, Repr

/-- The entry block of `tradingview_webhook` (reached when the event is an
entry and `data` is truthy): guardrails, price extraction, risk sizing, and
the market-order submission, exactly in the source's order. -/
def runEntry (event symbol : String) (d : JsonData) (brk : Broker)
    (st : Ledger) : EngineResult :=
  if st.daily_loss_r ≤ -MAX_DAILY_LOSS_R then
    ⟨st, .blockedDailyLoss st.daily_loss_r, [], [], []⟩
  else if st.trade_count ≥ MAX_TRADES_PER_DAY then
    ⟨st, .blockedMaxTrades st.trade_count, [], [], []⟩
  else
    match parsedPrices d with
    | none => ⟨st, .missingPriceData, [], [], []⟩
    | some (entry_price, or_high, or_low) =>
      if entry_price ≤ 0 then ⟨st, .missingPriceData, [], [], []⟩
      else
        let stop_price := if event = "ENTRY_LONG" then or_low else or_high
        let risk_per_unit := |entry_price - stop_price|
        if risk_per_unit ≤ 0 then
          ⟨st, .invalidRiskPerUnit risk_per_unit, [], [], []⟩
        else
          match brk.equity with
          | .error m => ⟨st, .tradingError m, [], [], []⟩
          | .ok equity =>
            if equity ≤ 0 then ⟨st, .equityNonpositive equity, [], [], []⟩
            else
              let dollar_risk := equity * RISK_PER_TRADE
              let qty_from_risk := dollar_risk / risk_per_unit
              let max_qty_notional := equity / entry_price
              let qty := min qty_from_risk max_qty_notional
              if qty ≤ 0 then ⟨st, .qtyNonpositive qty, [], [], []⟩
              else
                let side :=
                  if event = "ENTRY_LONG" then OrderSide.buy else OrderSide.sell
                let ord : Order := ⟨symbol, qty, side, tif_for_symbol symbol⟩
                match brk.submit with
                | .error m => ⟨st, .tradingError m, [ord], [], []⟩
                | .ok oid =>
                    ⟨{ st with trade_count := st.trade_count + 1 },
                      .orderPlaced event symbol qty oid (st.trade_count + 1),
                      [ord], [], []⟩

/-- The `PARTIAL_EXIT` block of `tradingview_webhook`: look up the open
position under the normalized symbol, and submit half of it on the opposite
side under the original symbol.  A raised lookup (position absent or broker
failure) or a raised submission lands in the block's own exception
handler. -/
def runPartial (symbol : String) (brk : Broker) (st : Ledger) : EngineResult :=
  let pos_symbol := symbol_for_positions symbol
  match brk.openPosition with
  | .notFound m => ⟨st, .partialExitError symbol m, [], [pos_symbol], []⟩
  | .failure m => ⟨st, .partialExitError symbol m, [], [pos_symbol], []⟩
  | .found rawQty rawSide =>
    let pos_qty := rawQty
    let pos_side := pyLower rawSide
    if pos_qty ≤ 0 then ⟨st, .noOpenPositionSize, [], [pos_symbol], []⟩
    else
      let half_qty := pos_qty / 2
      let exit_side :=
        if pos_side = "long" then OrderSide.sell else OrderSide.buy
      let ord : Order := ⟨symbol, half_qty, exit_side, tif_for_symbol symbol⟩
      match brk.submit with
      | .error m => ⟨st, .partialExitError symbol m, [ord], [pos_symbol], []⟩
      | .ok oid =>
          ⟨st, .partialExitDone half_qty symbol pos_side oid, [ord],
            [pos_symbol], []⟩

/-- The `FINAL_EXIT` block of `tradingview_webhook`: close the whole
position under the normalized symbol; only after a successful close, and
only for reason `STOP_PHASE1`, record the `-1R` loss.  A raised close lands
in the block's own exception handler, leaving the ledger untouched. -/
def runFinal (symbol : String) (reason : Option String) (brk : Broker)
    (st : Ledger) : EngineResult :=
  let close_symbol := symbol_for_positions symbol
  match brk.closePosition with
  | .error m => ⟨st, .finalExitError symbol close_symbol m, [], [], [close_symbol]⟩
  | .ok resp =>
    if reason = some "STOP_PHASE1" then
      ⟨{ st with daily_loss_r := st.daily_loss_r - 1 },
        .finalExitClosed symbol close_symbol resp, [], [], [close_symbol]⟩
    else
      ⟨st, .finalExitClosed symbol close_symbol resp, [], [], [close_symbol]⟩

/-- The trading dispatch of `tradingview_webhook`: the entry block requires
both an entry event and a truthy `data`; otherwise the `elif` chain tries
`PARTIAL_EXIT` and `FINAL_EXIT`, and any other event leaves the default
`alpaca_result` untouched. -/
def dispatch (sig : Signal) (brk : Broker) (st : Ledger) : EngineResult :=
  if sig.event = "ENTRY_LONG" ∨ sig.event = "ENTRY_SHORT" then
    match sig.data with
    | some d => runEntry sig.event sig.symbol d brk st
    | none => ⟨st, .noAction, [], [], []⟩
  else if sig.event = "PARTIAL_EXIT" then runPartial sig.symbol brk st
  else if sig.event = "FINAL_EXIT" then runFinal sig.symbol sig.reason brk st
  else ⟨st, .noAction, [], [], []⟩

/-- One full invocation of `tradingview_webhook`'s decision logic: reset the
daily counters (first), parse the body, then dispatch. -/
def webhook (today : Nat) (body : String) (jsonLoads : Option JsonData)
    (brk : Broker) (st : Ledger) : EngineResult :=
  dispatch (parseBody body jsonLoads) brk (reset_daily_if_needed today st)

/-- Python `int()` truncation toward zero on an exact rational. -/
def pyInt (q : Rat) : Int :=
  if 0 ≤ q then q.floor else q.ceil

/-- Embedding of `ORBTradingBot.calculate_position_size` from
`src/orb_discord_bot.py` (the separate Discord paper-trading bot): shares
are rounded down to whole units and capped by `max_position_size`, not by
equity.  This sizer feeds only the in-memory paper `Position` book; it never
submits a brokerage order. -/
def calculate_position_size (account_balance risk_per_trade max_position_size : Rat)
    (entry_price stop_loss : Rat) : Int :=
  let risk_per_share := |entry_price - stop_loss|
  if risk_per_share = 0 then 0
  else
    let risk_amount := account_balance * risk_per_trade
    min (pyInt (risk_amount / risk_per_share))
      (pyInt (max_position_size / entry_price))

/-- A broker on which every call succeeds: equity 100000, an open long
position of 10 units, order id `oid-1`. -/
def sampleBroker : Broker :=
  ⟨.ok 100000, .found 10 "long", .ok "oid-1", .ok "receipt"⟩

/-- A broker whose `close_position` call raises. -/
def closeFailBroker : Broker :=
  ⟨.ok 100000, .found 10 "long", .ok "oid-1", .error "connection lost"⟩

/-- A broker with no open position: the position lookup raises the broker's
position-does-not-exist error. -/
def noPositionBroker : Broker :=
  ⟨.ok 100000, .notFound "position does not exist", .ok "oid-1", .ok "receipt"⟩

/-- A broker whose `get_account` call raises. -/
def equityFailBroker : Broker :=
  ⟨.error "account unavailable", .found 10 "long", .ok "oid-1", .ok "receipt"⟩

/-- The JSON payload of spec scenario A: a long entry on `QQQ` at 100 with
opening range 99 to 101. -/
def dA : JsonData :=
  ⟨some "ENTRY_LONG", some "QQQ", none, some 100, some 101, some 99, true⟩

/-- The parsed signal of spec scenario A. -/
def sigA : Signal := ⟨"ENTRY_LONG", "QQQ", none, some dA⟩

/-- The JSON payload of spec scenario E: a short entry whose `orHigh` is
missing. -/
def dE : JsonData :=
  ⟨some "ENTRY_SHORT", some "QQQ", none, some 100, none, some 99, true⟩

/-- The parsed signal of spec scenario E. -/
def sigE : Signal := ⟨"ENTRY_SHORT", "QQQ", none, some dE⟩

/-- On an entry event with a truthy payload, the dispatch runs the entry
block. -/
theorem dispatch_entry (sig : Signal) (d : JsonData) (brk : Broker) (st : Ledger)
    (hev : sig.event = "ENTRY_LONG" ∨ sig.event = "ENTRY_SHORT")
    (hd : sig.data = some d) :
    dispatch sig brk st = runEntry sig.event sig.symbol d brk st := by
  unfold dispatch
  rw [if_pos hev, hd]

/-- On an entry event without a truthy payload (the legacy plain-text path),
the dispatch takes no branch at all. -/
theorem dispatch_entry_noData (sig : Signal) (brk : Broker) (st : Ledger)
    (hev : sig.event = "ENTRY_LONG" ∨ sig.event = "ENTRY_SHORT")
    (hd : sig.data = none) :
    dispatch sig brk st = ⟨st, .noAction, [], [], []⟩ := by
  unfold dispatch
  rw [if_pos hev, hd]

/-- On a `PARTIAL_EXIT` event the dispatch runs the partial-exit block. -/
theorem dispatch_partial_exit (sig : Signal) (brk : Broker) (st : Ledger)
    (hev : sig.event = "PARTIAL_EXIT") :
    dispatch sig brk st = runPartial sig.symbol brk st := by
  unfold dispatch
  rw [hev]
  simp

/-- On a `FINAL_EXIT` event the dispatch runs the final-exit block. -/
theorem dispatch_final (sig : Signal) (brk : Broker) (st : Ledger)
    (hev : sig.event = "FINAL_EXIT") :
    dispatch sig brk st = runFinal sig.symbol sig.reason brk st := by
  unfold dispatch
  rw [hev]
  simp

/-- On any other event the dispatch takes no branch. -/
theorem dispatch_other (sig : Signal) (brk : Broker) (st : Ledger)
    (h1 : sig.event ≠ "ENTRY_LONG") (h2 : sig.event ≠ "ENTRY_SHORT")
    (h3 : sig.event ≠ "PARTIAL_EXIT") (h4 : sig.event ≠ "FINAL_EXIT") :
    dispatch sig brk st = ⟨st, .noAction, [], [], []⟩ := by
  unfold dispatch
  rw [if_neg (by simp [h1, h2]), if_neg h3, if_neg h4]

/-- C9: `reset_daily_if_needed` is idempotent within a UTC day: if the
stored day differs from the current UTC date it zeroes both counters and
adopts the new date, a second call on the same day changes nothing, and the
webhook applies it before the dispatch (hence before any guardrail
check). -/
theorem C9_reset_idempotent (today : Nat) (st : Ledger) (body : String)
    (jsonLoads : Option JsonData) (brk : Broker) :
    reset_daily_if_needed today (reset_daily_if_needed today st)
        = reset_daily_if_needed today st
    ∧ (st.current_day ≠ some today →
        reset_daily_if_needed today st = ⟨some today, 0, 0⟩)
    ∧ (st.current_day = some today → reset_daily_if_needed today st = st)
    ∧ webhook today body jsonLoads brk st
        = dispatch (parseBody body jsonLoads) brk (reset_daily_if_needed today st) := by
  refine ⟨?_, ?_, ?_, rfl⟩
  · by_cases h : st.current_day = some today <;> simp [reset_daily_if_needed, h]
  · intro h; simp [reset_daily_if_needed, h]
  · intro h; simp [reset_daily_if_needed, h]

/-- C8: the parser never throws on malformed input: whenever the JSON
decode fails (and also whenever the body is not JSON-shaped at all), the
parse falls back to scanning for the three exact case-sensitive markers,
mapping them to `ENTRY_LONG`, `ENTRY_SHORT` and `FINAL_EXIT` with symbol
`QQQ`, and yields event `UNKNOWN` when none matches. -/
theorem C8_parser_fallback (body : String) (jsonLoads : Option JsonData) :
    parseBody body none = legacySignal body
    ∧ (looksLikeJson body = false → parseBody body jsonLoads = legacySignal body)
    ∧ (containsSubstring body "ORB_QQQ_ENTRY_LONG" = true →
        legacySignal body = ⟨"ENTRY_LONG", "QQQ", none, none⟩)
    ∧ (containsSubstring body "ORB_QQQ_ENTRY_LONG" = false →
        containsSubstring body "ORB_QQQ_ENTRY_SHORT" = true →
        legacySignal body = ⟨"ENTRY_SHORT", "QQQ", none, none⟩)
    ∧ (containsSubstring body "ORB_QQQ_ENTRY_LONG" = false →
        containsSubstring body "ORB_QQQ_ENTRY_SHORT" = false →
        containsSubstring body "ORB_QQQ_EXIT" = true →
        legacySignal body = ⟨"FINAL_EXIT", "QQQ", none, none⟩)
    ∧ (containsSubstring body "ORB_QQQ_ENTRY_LONG" = false →
        containsSubstring body "ORB_QQQ_ENTRY_SHORT" = false →
        containsSubstring body "ORB_QQQ_EXIT" = false →
        legacySignal body = ⟨"UNKNOWN", "QQQ", none, none⟩) := by
  refine ⟨?_, ?_, ?_, ?_, ?_, ?_⟩
  · by_cases h : looksLikeJson body <;> simp [parseBody, h]
  · intro h; simp [parseBody, h]
  · intro hL; simp [legacySignal, hL]
  · intro hL hS; simp [legacySignal, hL, hS]
  · intro hL hS hX; simp [legacySignal, hL, hS, hX]
  · intro hL hS hX; simp [legacySignal, hL, hS, hX]

/-- Every order the entry block submits carries the symbol as received, and
the entry block makes no position or close lookups. -/
theorem runEntry_symbols (event symbol : String) (d : JsonData) (brk : Broker)
    (st : Ledger) :
    (∀ o ∈ (runEntry event symbol d brk st).submits, o.symbol = symbol)
    ∧ (runEntry event symbol d brk st).posLookups = []
    ∧ (runEntry event symbol d brk st).closeCalls = [] := by
  refine ⟨?_, ?_, ?_⟩
  · intro o ho
    simp only [runEntry] at ho
    repeat' split at ho
    all_goals simp_all
  · simp only [runEntry]
    repeat' split
    all_goals rfl
  · simp only [runEntry]
    repeat' split
    all_goals rfl

/-- Every order the partial-exit block submits carries the symbol as
received; its single position lookup uses the normalized symbol; it makes no
close call. -/
theorem runPartial_symbols (symbol : String) (brk : Broker) (st : Ledger) :
    (∀ o ∈ (runPartial symbol brk st).submits, o.symbol = symbol)
    ∧ (runPartial symbol brk st).posLookups = [symbol_for_positions symbol]
    ∧ (runPartial symbol brk st).closeCalls = [] := by
  refine ⟨?_, ?_, ?_⟩
  · intro o ho
    simp only [runPartial] at ho
    repeat' split at ho
    all_goals simp_all
  · simp only [runPartial]
    repeat' split
    all_goals rfl
  · simp only [runPartial]
    repeat' split
    all_goals rfl

/-- The final-exit block submits no order, makes no position lookup, and its
single close call uses the normalized symbol. -/
theorem runFinal_symbols (symbol : String) (reason : Option String)
    (brk : Broker) (st : Ledger) :
    (runFinal symbol reason brk st).submits = []
    ∧ (runFinal symbol reason brk st).posLookups = []
    ∧ (runFinal symbol reason brk st).closeCalls = [symbol_for_positions symbol] := by
  refine ⟨?_, ?_, ?_⟩ <;> simp only [runFinal] <;> (repeat' split) <;> rfl

/-- C6: for every signal, order submissions use the symbol exactly as
received, while position lookups and close-position calls use the symbol
with every `/` stripped; `BTC/USD` normalizes to `BTCUSD` and a slash-free
symbol is left unchanged. -/
theorem C6_symbol_normalization (sig : Signal) (brk : Broker) (st : Ledger) :
    (∀ o ∈ (dispatch sig brk st).submits, o.symbol = sig.symbol)
    ∧ (∀ s ∈ (dispatch sig brk st).posLookups, s = symbol_for_positions sig.symbol)
    ∧ (∀ s ∈ (dispatch sig brk st).closeCalls, s = symbol_for_positions sig.symbol)
    ∧ symbol_for_positions "BTC/USD" = "BTCUSD"
    ∧ (∀ sym : String, hasSlash sym = false → symbol_for_positions sym = sym) := by
  have key : (∀ o ∈ (dispatch sig brk st).submits, o.symbol = sig.symbol)
      ∧ (∀ s ∈ (dispatch sig brk st).posLookups, s = symbol_for_positions sig.symbol)
      ∧ (∀ s ∈ (dispatch sig brk st).closeCalls, s = symbol_for_positions sig.symbol) := by
    by_cases hE : sig.event = "ENTRY_LONG" ∨ sig.event = "ENTRY_SHORT"
    · cases hd : sig.data with
      | some d =>
          rw [dispatch_entry sig d brk st hE hd]
          have h := runEntry_symbols sig.event sig.symbol d brk st
          exact ⟨h.1, by simp [h.2.1], by simp [h.2.2]⟩
      | none =>
          rw [dispatch_entry_noData sig brk st hE hd]
          simp
    · by_cases hP : sig.event = "PARTIAL_EXIT"
      · rw [dispatch_partial_exit sig brk st hP]
        have h := runPartial_symbols sig.symbol brk st
        exact ⟨h.1, by simp [h.2.1], by simp [h.2.2]⟩
      · by_cases hF : sig.event = "FINAL_EXIT"
        · rw [dispatch_final sig brk st hF]
          have h := runFinal_symbols sig.symbol sig.reason brk st
          exact ⟨by simp [h.1], by simp [h.2.1], by simp [h.2.2]⟩
        · rw [dispatch_other sig brk st (fun h => hE (Or.inl h))
            (fun h => hE (Or.inr h)) hP hF]
          simp
  refine ⟨key.1, key.2.1, key.2.2, by decide, ?_⟩
  intro sym h
  simp [symbol_for_positions, h]

/-- C1: for an entry signal with a truthy payload that passes both
guardrails, whose prices parse with a positive entry price, positive risk
per unit and positive equity, the engine submits exactly one market order
whose quantity is `min(equity * riskFraction / riskPerUnit, equity /
entryPrice)` — exactly, with no rounding to whole units — and that quantity
is positive.  The stop is `orLow` for a long entry and `orHigh` for a short
one; the side is buy for long and sell for short. -/
theorem C1_entry_quantity (sig : Signal) (d : JsonData) (brk : Broker)
    (st : Ledger) (ep hi lo equity : Rat)
    (hev : sig.event = "ENTRY_LONG" ∨ sig.event = "ENTRY_SHORT")
    (hdata : sig.data = some d)
    (hg1 : ¬ st.daily_loss_r ≤ -MAX_DAILY_LOSS_R)
    (hg2 : st.trade_count < MAX_TRADES_PER_DAY)
    (hp : parsedPrices d = some (ep, hi, lo))
    (hpe : 0 < ep)
    (hrpu : 0 < |ep - (if sig.event = "ENTRY_LONG" then lo else hi)|)
    (heq : brk.equity = Except.ok equity)
    (hepos : 0 < equity) :
    0 < min (equity * RISK_PER_TRADE
          / |ep - (if sig.event = "ENTRY_LONG" then lo else hi)|) (equity / ep)
    ∧ (dispatch sig brk st).submits =
      [⟨sig.symbol,
        min (equity * RISK_PER_TRADE
          / |ep - (if sig.event = "ENTRY_LONG" then lo else hi)|) (equity / ep),
        (if sig.event = "ENTRY_LONG" then OrderSide.buy else OrderSide.sell),
        tif_for_symbol sig.symbol⟩] := by
  have hqty : 0 < min (equity * RISK_PER_TRADE
      / |ep - (if sig.event = "ENTRY_LONG" then lo else hi)|) (equity / ep) := by
    apply lt_min
    · exact div_pos (mul_pos hepos (by norm_num [RISK_PER_TRADE])) hrpu
    · exact div_pos hepos hpe
  have hg2' : ¬ st.trade_count ≥ MAX_TRADES_PER_DAY := by omega
  have hpe' : ¬ ep ≤ 0 := not_le.mpr hpe
  have hrpu' : ¬ |ep - (if sig.event = "ENTRY_LONG" then lo else hi)| ≤ 0 :=
    not_le.mpr hrpu
  have hqty' : ¬ min (equity * RISK_PER_TRADE
      / |ep - (if sig.event = "ENTRY_LONG" then lo else hi)|) (equity / ep) ≤ 0 :=
    not_le.mpr hqty
  have hepos' : ¬ equity ≤ 0 := not_le.mpr hepos
  refine ⟨hqty, ?_⟩
  rw [dispatch_entry sig d brk st hev hdata]
  cases hsub : brk.submit with
  | error m => simp [runEntry, hp, heq, hsub, hg1, hg2', hpe', hrpu', hqty', hepos']
  | ok oid => simp [runEntry, hp, heq, hsub, hg1, hg2', hpe', hrpu', hqty', hepos']

/-- Within the entry block, `trade_count` grows by exactly one when the
detail is the entry-order-placed message and is unchanged otherwise. -/
theorem runEntry_trade_count (event symbol : String) (d : JsonData)
    (brk : Broker) (st : Ledger) :
    (runEntry event symbol d brk st).ledger.trade_count
      = (if isEntryOrderPlaced (runEntry event symbol d brk st).detail
          then st.trade_count + 1 else st.trade_count) := by
  simp only [runEntry]
  repeat' split
  all_goals simp_all [isEntryOrderPlaced]

/-- The partial-exit block never touches the ledger and never reports the
entry-order-placed detail. -/
theorem runPartial_no_entry (symbol : String) (brk : Broker) (st : Ledger) :
    (runPartial symbol brk st).ledger = st
    ∧ isEntryOrderPlaced (runPartial symbol brk st).detail = false := by
  simp only [runPartial]
  repeat' split
  all_goals simp [isEntryOrderPlaced]

/-- The final-exit block never touches `trade_count` and never reports the
entry-order-placed detail. -/
theorem runFinal_no_entry (symbol : String) (reason : Option String)
    (brk : Broker) (st : Ledger) :
    (runFinal symbol reason brk st).ledger.trade_count = st.trade_count
    ∧ isEntryOrderPlaced (runFinal symbol reason brk st).detail = false := by
  simp only [runFinal]
  repeat' split
  all_goals simp [isEntryOrderPlaced]

/-- Across every branch of the engine, `trade_count` grows by exactly one
when the detail is the entry-order-placed message and is unchanged
otherwise. -/
theorem dispatch_trade_count (sig : Signal) (brk : Broker) (st : Ledger) :
    (dispatch sig brk st).ledger.trade_count
      = (if isEntryOrderPlaced (dispatch sig brk st).detail
          then st.trade_count + 1 else st.trade_count) := by
  by_cases hE : sig.event = "ENTRY_LONG" ∨ sig.event = "ENTRY_SHORT"
  · cases hd : sig.data with
    | some d =>
        rw [dispatch_entry sig d brk st hE hd]
        exact runEntry_trade_count sig.event sig.symbol d brk st
    | none =>
        rw [dispatch_entry_noData sig brk st hE hd]
        simp [isEntryOrderPlaced]
  · by_cases hP : sig.event = "PARTIAL_EXIT"
    · have h := runPartial_no_entry sig.symbol brk st
      simp [dispatch_partial_exit sig brk st hP, h.1, h.2]
    · by_cases hF : sig.event = "FINAL_EXIT"
      · have h := runFinal_no_entry sig.symbol sig.reason brk st
        simp [dispatch_final sig brk st hF, h.1, h.2]
      · rw [dispatch_other sig brk st (fun h => hE (Or.inl h))
          (fun h => hE (Or.inr h)) hP hF]
        simp [isEntryOrderPlaced]

/-- The entry-order-placed detail occurs only when the submission call
returned successfully. -/
theorem dispatch_placed_submit_ok (sig : Signal) (brk : Broker) (st : Ledger) :
    isEntryOrderPlaced (dispatch sig brk st).detail = true →
      ∃ oid, brk.submit = Except.ok oid := by
  intro h
  simp only [dispatch, runEntry, runPartial, runFinal] at h
  repeat' split at h
  all_goals simp_all [isEntryOrderPlaced]

/-- Whenever the engine reports a caught failure (outcome `ERROR`), the
ledger is exactly as it was before the signal. -/
theorem dispatch_error_ledger (sig : Signal) (brk : Broker) (st : Ledger) :
    (dispatch sig brk st).detail.action = Action.ERROR →
      (dispatch sig brk st).ledger = st := by
  simp only [dispatch, runEntry, runPartial, runFinal]
  repeat' split
  all_goals simp [Detail.action]

/-- Every error message the engine reports is the message of one of the
broker calls that failed (or of the position lookup that raised). -/
theorem dispatch_errMsg_from_broker (sig : Signal) (brk : Broker) (st : Ledger)
    (m : String) :
    (dispatch sig brk st).detail.errMsg = some m →
      brk.equity = Except.error m ∨ brk.submit = Except.error m
      ∨ brk.closePosition = Except.error m
      ∨ brk.openPosition = PosLookup.notFound m
      ∨ brk.openPosition = PosLookup.failure m := by
  intro h
  simp only [dispatch, runEntry, runPartial, runFinal] at h
  repeat' split at h
  all_goals simp_all [Detail.errMsg]

/-- C7: `trade_count` is incremented by exactly 1 only when the entry order
submission returned successfully, never before; every broker failure on a
call the engine reaches — the equity fetch or the submission during entry
sizing, the position lookup or the submission during a partial exit, the
close during a final exit — is caught and converted to an outcome of
`ERROR` whose detail carries the underlying message, leaving the ledger
(hence `trade_count`) unchanged; conversely every `ERROR` outcome preserves
the ledger and every reported message stems from a failed broker call; and
the engine is a total function of its inputs, so no failure propagates out
of it. -/
theorem C7_trade_count_and_errors (sig : Signal) (brk : Broker) (st : Ledger) :
    ((dispatch sig brk st).ledger.trade_count
      = (if isEntryOrderPlaced (dispatch sig brk st).detail
          then st.trade_count + 1 else st.trade_count))
    ∧ (isEntryOrderPlaced (dispatch sig brk st).detail = true →
        ∃ oid, brk.submit = Except.ok oid)
    ∧ ((dispatch sig brk st).detail.action = Action.ERROR →
        (dispatch sig brk st).ledger = st)
    ∧ (∀ m, (dispatch sig brk st).detail.errMsg = some m →
        brk.equity = Except.error m ∨ brk.submit = Except.error m
        ∨ brk.closePosition = Except.error m
        ∨ brk.openPosition = PosLookup.notFound m
        ∨ brk.openPosition = PosLookup.failure m)
    ∧ (∀ d ep hi lo, (sig.event = "ENTRY_LONG" ∨ sig.event = "ENTRY_SHORT") →
        sig.data = some d →
        ¬ st.daily_loss_r ≤ -MAX_DAILY_LOSS_R →
        ¬ st.trade_count ≥ MAX_TRADES_PER_DAY →
        parsedPrices d = some (ep, hi, lo) → 0 < ep →
        0 < |ep - (if sig.event = "ENTRY_LONG" then lo else hi)| →
        (∀ m, brk.equity = Except.error m →
            (dispatch sig brk st).detail = Detail.tradingError m
            ∧ (dispatch sig brk st).detail.action = Action.ERROR
            ∧ (dispatch sig brk st).ledger = st)
        ∧ (∀ equity m, brk.equity = Except.ok equity → 0 < equity →
            brk.submit = Except.error m →
            (dispatch sig brk st).detail = Detail.tradingError m
            ∧ (dispatch sig brk st).detail.action = Action.ERROR
            ∧ (dispatch sig brk st).ledger = st))
    ∧ (sig.event = "PARTIAL_EXIT" →
        (∀ m, brk.openPosition = PosLookup.failure m
            ∨ brk.openPosition = PosLookup.notFound m →
            (dispatch sig brk st).detail = Detail.partialExitError sig.symbol m
            ∧ (dispatch sig brk st).detail.action = Action.ERROR
            ∧ (dispatch sig brk st).ledger = st)
        ∧ (∀ q side m, brk.openPosition = PosLookup.found q side → 0 < q →
            brk.submit = Except.error m →
            (dispatch sig brk st).detail = Detail.partialExitError sig.symbol m
            ∧ (dispatch sig brk st).detail.action = Action.ERROR
            ∧ (dispatch sig brk st).ledger = st))
    ∧ (sig.event = "FINAL_EXIT" → ∀ m, brk.closePosition = Except.error m →
        (dispatch sig brk st).detail
            = Detail.finalExitError sig.symbol (symbol_for_positions sig.symbol) m
        ∧ (dispatch sig brk st).detail.action = Action.ERROR
        ∧ (dispatch sig brk st).ledger = st) := by
  refine ⟨dispatch_trade_count sig brk st, dispatch_placed_submit_ok sig brk st,
    dispatch_error_ledger sig brk st, dispatch_errMsg_from_broker sig brk st,
    ?_, ?_, ?_⟩
  · intro d ep hi lo hev hd hg1 hg2 hp hpe hrpu
    constructor
    · intro m hm
      rw [dispatch_entry sig d brk st hev hd]
      simp [runEntry, hg1, hg2, hp, not_le.mpr hpe, not_le.mpr hrpu, hm,
        Detail.action]
    · intro equity m heq hepos hsub
      have hqty : 0 < min (equity * RISK_PER_TRADE
          / |ep - (if sig.event = "ENTRY_LONG" then lo else hi)|) (equity / ep) := by
        apply lt_min
        · exact div_pos (mul_pos hepos (by norm_num [RISK_PER_TRADE])) hrpu
        · exact div_pos hepos hpe
      rw [dispatch_entry sig d brk st hev hd]
      simp [runEntry, hg1, hg2, hp, not_le.mpr hpe, not_le.mpr hrpu, heq,
        not_le.mpr hepos, hsub, not_le.mpr hqty, Detail.action]
  · intro hev
    constructor
    · intro m hm
      rcases hm with hm | hm <;>
        simp [dispatch_partial_exit sig brk st hev, runPartial, hm, Detail.action]
    · intro q side m hpos hq hsub
      simp [dispatch_partial_exit sig brk st hev, runPartial, hpos,
        not_le.mpr hq, hsub, Detail.action]
  · intro hev m hm
    simp [dispatch_final sig brk st hev, runFinal, hm, Detail.action]

/-- Within the entry block, the two guardrail-block details occur exactly
when the corresponding guardrail condition fails. -/
theorem runEntry_guard_detail (event symbol : String) (d : JsonData)
    (brk : Broker) (st : Ledger) :
    ((runEntry event symbol d brk st).detail = Detail.blockedDailyLoss st.daily_loss_r
        ∨ (runEntry event symbol d brk st).detail = Detail.blockedMaxTrades st.trade_count)
      ↔ (st.daily_loss_r ≤ -MAX_DAILY_LOSS_R ∨ st.trade_count ≥ MAX_TRADES_PER_DAY) := by
  simp only [runEntry]
  repeat' split
  all_goals simp_all

/-- Within the entry block, the outcome is a sizing-stage detail exactly
when both guardrails pass: the signal proceeds to sizing iff the gate lets
it through. -/
theorem runEntry_sizing_iff (event symbol : String) (d : JsonData)
    (brk : Broker) (st : Ledger) :
    sizingStage (runEntry event symbol d brk st).detail = true
      ↔ ¬ (st.daily_loss_r ≤ -MAX_DAILY_LOSS_R
            ∨ st.trade_count ≥ MAX_TRADES_PER_DAY) := by
  simp only [runEntry]
  repeat' split
  all_goals simp_all [sizingStage]

/-- When either guardrail fails, the entry block blocks: no submission, no
ledger change, and a guardrail-block detail. -/
theorem runEntry_guard_blocked (event symbol : String) (d : JsonData)
    (brk : Broker) (st : Ledger)
    (h : st.daily_loss_r ≤ -MAX_DAILY_LOSS_R ∨ st.trade_count ≥ MAX_TRADES_PER_DAY) :
    (runEntry event symbol d brk st).detail.action = Action.BLOCKED
    ∧ (runEntry event symbol d brk st).submits = []
    ∧ (runEntry event symbol d brk st).ledger = st := by
  by_cases h1 : st.daily_loss_r ≤ -MAX_DAILY_LOSS_R
  · simp [runEntry, h1, Detail.action]
  · have h2 : st.trade_count ≥ MAX_TRADES_PER_DAY := by tauto
    simp [runEntry, h1, h2, Detail.action]

/-- C2 (amended): an entry signal carrying a truthy JSON payload is allowed
to proceed to sizing — its outcome is a sizing-stage detail — iff
`daily_loss_r > -2.0` and `trade_count < 3`; equivalently, it carries a
guardrail-block detail iff either condition fails, and in that case the
outcome is `BLOCKED`, no order is submitted and the ledger is unchanged.
An entry signal from the legacy plain-text fallback carries no payload and
produces no action at all (outcome `NONE`), rather than a `BLOCKED`
outcome. -/
theorem C2_guardrail_gate (sig : Signal) (brk : Broker) (st : Ledger)
    (hev : sig.event = "ENTRY_LONG" ∨ sig.event = "ENTRY_SHORT") :
    (sig.data = none → dispatch sig brk st = ⟨st, .noAction, [], [], []⟩)
    ∧ (∀ d, sig.data = some d →
        (((dispatch sig brk st).detail = Detail.blockedDailyLoss st.daily_loss_r
            ∨ (dispatch sig brk st).detail = Detail.blockedMaxTrades st.trade_count)
          ↔ (st.daily_loss_r ≤ -MAX_DAILY_LOSS_R ∨ st.trade_count ≥ MAX_TRADES_PER_DAY)))
    ∧ (∀ d, sig.data = some d →
        (st.daily_loss_r ≤ -MAX_DAILY_LOSS_R ∨ st.trade_count ≥ MAX_TRADES_PER_DAY) →
          (dispatch sig brk st).detail.action = Action.BLOCKED
          ∧ (dispatch sig brk st).submits = []
          ∧ (dispatch sig brk st).ledger = st)
    ∧ (∀ d, sig.data = some d →
        (sizingStage (dispatch sig brk st).detail = true
          ↔ ¬ (st.daily_loss_r ≤ -MAX_DAILY_LOSS_R
                ∨ st.trade_count ≥ MAX_TRADES_PER_DAY))) := by
  refine ⟨fun hd => dispatch_entry_noData sig brk st hev hd, ?_, ?_, ?_⟩
  · intro d hd
    rw [dispatch_entry sig d brk st hev hd]
    exact runEntry_guard_detail sig.event sig.symbol d brk st
  · intro d hd h
    rw [dispatch_entry sig d brk st hev hd]
    exact runEntry_guard_blocked sig.event sig.symbol d brk st h
  · intro d hd
    rw [dispatch_entry sig d brk st hev hd]
    exact runEntry_sizing_iff sig.event sig.symbol d brk st

/-- C3 (amended): on a `FINAL_EXIT`, `daily_loss_r` decreases by exactly 1
when the close succeeds and the reason is `STOP_PHASE1`; it is unchanged
when the reason is anything else (or absent), and also unchanged when the
close-position call fails, whatever the reason. -/
theorem C3_loss_recording (sig : Signal) (brk : Broker) (st : Ledger)
    (hev : sig.event = "FINAL_EXIT") :
    (∀ r, brk.closePosition = Except.ok r →
        (dispatch sig brk st).ledger.daily_loss_r
          = (if sig.reason = some "STOP_PHASE1" then st.daily_loss_r - 1
              else st.daily_loss_r))
    ∧ (∀ m, brk.closePosition = Except.error m →
        (dispatch sig brk st).ledger.daily_loss_r = st.daily_loss_r) := by
  rw [dispatch_final sig brk st hev]
  constructor
  · intro r hr
    by_cases h : sig.reason = some "STOP_PHASE1" <;> simp [runFinal, hr, h]
  · intro m hm
    simp [runFinal, hm]

/-- C10: if the close-position call raises during a `FINAL_EXIT`, the
ledger is left entirely unchanged — in particular `daily_loss_r` is not
decremented even when the reason is `STOP_PHASE1` — and the outcome is the
close-failure error carrying the broker's message. -/
theorem C10_close_failure_preserves_ledger (sig : Signal) (brk : Broker)
    (st : Ledger) (m : String)
    (hev : sig.event = "FINAL_EXIT") (hc : brk.closePosition = Except.error m) :
    (dispatch sig brk st).ledger = st
    ∧ (dispatch sig brk st).detail
        = Detail.finalExitError sig.symbol (symbol_for_positions sig.symbol) m := by
  rw [dispatch_final sig brk st hev]
  simp [runFinal, hc]

/-- C4 (amended): with the guardrails passing, an entry signal whose JSON
payload is missing any parsable price field — or whose entry price is not
positive — is rejected with the specific missing-price detail (a `BLOCKED`
outcome, no order, ledger unchanged); an entry signal from the legacy
plain-text fallback, which carries no payload at all, places no order
either, but yields the default no-action outcome rather than `BLOCKED`. -/
theorem C4_price_validation (sig : Signal) (brk : Broker) (st : Ledger)
    (hev : sig.event = "ENTRY_LONG" ∨ sig.event = "ENTRY_SHORT")
    (hg1 : ¬ st.daily_loss_r ≤ -MAX_DAILY_LOSS_R)
    (hg2 : ¬ st.trade_count ≥ MAX_TRADES_PER_DAY) :
    (∀ d, sig.data = some d → parsedPrices d = none →
        dispatch sig brk st = ⟨st, .missingPriceData, [], [], []⟩)
    ∧ (∀ d ep hi lo, sig.data = some d → parsedPrices d = some (ep, hi, lo) →
        ep ≤ 0 → dispatch sig brk st = ⟨st, .missingPriceData, [], [], []⟩)
    ∧ Detail.missingPriceData.action = Action.BLOCKED
    ∧ (sig.data = none → dispatch sig brk st = ⟨st, .noAction, [], [], []⟩) := by
  refine ⟨?_, ?_, rfl, fun hd => dispatch_entry_noData sig brk st hev hd⟩
  · intro d hd hp
    rw [dispatch_entry sig d brk st hev hd]
    simp [runEntry, hg1, hg2, hp]
  · intro d ep hi lo hd hp hle
    rw [dispatch_entry sig d brk st hev hd]
    simp [runEntry, hg1, hg2, hp, hle]

/-- C5 (amended): on a `PARTIAL_EXIT` the ledger is never changed.  When the
position lookup returns a position with quantity `q > 0`, the engine submits
exactly one order for `q / 2` under the as-received symbol, on the opposite
side of the position (sell for `long`, buy otherwise).  When the returned
quantity is `≤ 0`, the outcome is the no-open-position-size message (a
`BLOCKED` outcome) with no order.  When there is no open position — the
lookup raises — the outcome is the partial-exit error carrying the broker's
message, an `ERROR` rather than a `BLOCKED` outcome, with no order. -/
theorem C5_partial_exit (sig : Signal) (brk : Broker) (st : Ledger)
    (hev : sig.event = "PARTIAL_EXIT") :
    (dispatch sig brk st).ledger = st
    ∧ (∀ q side, brk.openPosition = PosLookup.found q side → 0 < q →
        (dispatch sig brk st).submits
          = [⟨sig.symbol, q / 2,
              (if pyLower side = "long" then OrderSide.sell else OrderSide.buy),
              tif_for_symbol sig.symbol⟩])
    ∧ (∀ q side, brk.openPosition = PosLookup.found q side → q ≤ 0 →
        (dispatch sig brk st).detail = Detail.noOpenPositionSize
        ∧ (dispatch sig brk st).detail.action = Action.BLOCKED
        ∧ (dispatch sig brk st).submits = [])
    ∧ (∀ m, brk.openPosition = PosLookup.notFound m →
        (dispatch sig brk st).detail = Detail.partialExitError sig.symbol m
        ∧ (dispatch sig brk st).detail.action = Action.ERROR
        ∧ (dispatch sig brk st).submits = []) := by
  rw [dispatch_partial_exit sig brk st hev]
  refine ⟨(runPartial_no_entry sig.symbol brk st).1, ?_, ?_, ?_⟩
  · intro q side hpos hq
    have hq' : ¬ q ≤ 0 := not_le.mpr hq
    cases hsub : brk.submit with
    | error m => simp [runPartial, hpos, hq', hsub]
    | ok oid => simp [runPartial, hpos, hq', hsub]
  · intro q side hpos hq
    simp [runPartial, hpos, hq, Detail.action]
  · intro m hpos
    simp [runPartial, hpos, Detail.action]

section ConcreteRuns

/-! Concrete engine runs.  The arithmetic on `Rat` in the standard library
is sealed for performance; re-open it locally so that closed engine runs
can be settled by `decide`. -/

attribute [local semireducible] Rat.add Rat.mul Rat.sub Rat.inv Rat.ofScientific

/-- Witness for C1 at scenario A: equity 100000 and risk per unit 1, so the
quantity is `min(500, 1000) = 500`, submitted as a single buy order. -/
theorem C1_entry_quantity_witness :
    (dispatch sigA sampleBroker ⟨some 0, 0, 0⟩).submits
      = [⟨"QQQ", 500, OrderSide.buy, TimeInForce.day⟩]
    ∧ (0 : Rat) < 500 := by
  have h := C1_entry_quantity sigA dA sampleBroker ⟨some 0, 0, 0⟩ 100 101 99 100000
    (Or.inl rfl) rfl (by decide) (by decide) rfl (by decide) (by decide) rfl (by decide)
  exact ⟨h.2.trans (by decide), by decide⟩

/-- Counterexample to C2 as stated: a legacy plain-text `ENTRY_LONG` signal
arriving with the trade-cap guardrail already at its limit is not
`BLOCKED`; the engine takes no action at all on it. -/
theorem C2_counterexample :
    (parseBody "ORB_QQQ_ENTRY_LONG" none).event = "ENTRY_LONG"
    ∧ (3 : Nat) ≥ MAX_TRADES_PER_DAY
    ∧ (webhook 0 "ORB_QQQ_ENTRY_LONG" none sampleBroker ⟨some 0, 0, 3⟩).detail
        = Detail.noAction
    ∧ (webhook 0 "ORB_QQQ_ENTRY_LONG" none sampleBroker ⟨some 0, 0, 3⟩).detail.action
        ≠ Action.BLOCKED
    ∧ (webhook 0 "ORB_QQQ_ENTRY_LONG" none sampleBroker ⟨some 0, 0, 3⟩).submits = [] := by
  decide

/-- Witness for C2 (amended) at spec scenario B: a JSON entry with the trade
cap reached is `BLOCKED`, submits nothing, and leaves the ledger as it was;
the same entry with a fresh ledger proceeds to sizing. -/
theorem C2_guardrail_gate_witness :
    ((dispatch ⟨"ENTRY_LONG", "QQQ", none, some dA⟩ sampleBroker
        ⟨some 0, 0, 3⟩).detail.action = Action.BLOCKED
    ∧ (dispatch ⟨"ENTRY_LONG", "QQQ", none, some dA⟩ sampleBroker
        ⟨some 0, 0, 3⟩).submits = []
    ∧ (dispatch ⟨"ENTRY_LONG", "QQQ", none, some dA⟩ sampleBroker
        ⟨some 0, 0, 3⟩).ledger = ⟨some 0, 0, 3⟩)
    ∧ sizingStage (dispatch ⟨"ENTRY_LONG", "QQQ", none, some dA⟩ sampleBroker
        ⟨some 0, 0, 0⟩).detail = true :=
  ⟨(C2_guardrail_gate ⟨"ENTRY_LONG", "QQQ", none, some dA⟩ sampleBroker
      ⟨some 0, 0, 3⟩ (Or.inl rfl)).2.2.1 dA rfl (Or.inr (by decide)),
    ((C2_guardrail_gate ⟨"ENTRY_LONG", "QQQ", none, some dA⟩ sampleBroker
      ⟨some 0, 0, 0⟩ (Or.inl rfl)).2.2.2 dA rfl).mpr (by decide)⟩

/-- Counterexample to C3 as stated: a `FINAL_EXIT` with reason
`STOP_PHASE1` whose close-position call raises leaves `daily_loss_r` at 0;
it is not decreased by 1. -/
theorem C3_counterexample :
    (dispatch ⟨"FINAL_EXIT", "QQQ", some "STOP_PHASE1", none⟩ closeFailBroker
        ⟨some 0, 0, 0⟩).ledger.daily_loss_r = 0
    ∧ ¬ (dispatch ⟨"FINAL_EXIT", "QQQ", some "STOP_PHASE1", none⟩ closeFailBroker
        ⟨some 0, 0, 0⟩).ledger.daily_loss_r = (0 : Rat) - 1 := by
  decide

/-- Witness for C3 (amended): with a succeeding close, reason `STOP_PHASE1`
records exactly -1R. -/
theorem C3_loss_recording_witness :
    (dispatch ⟨"FINAL_EXIT", "QQQ", some "STOP_PHASE1", none⟩ sampleBroker
        ⟨some 0, 0, 0⟩).ledger.daily_loss_r = -1 := by
  have h := (C3_loss_recording ⟨"FINAL_EXIT", "QQQ", some "STOP_PHASE1", none⟩
    sampleBroker ⟨some 0, 0, 0⟩ rfl).1 "receipt" rfl
  exact h.trans (by decide)

/-- Counterexample to C4 as stated: a legacy plain-text `ENTRY_SHORT`
signal carries no price fields, yet the engine does not reject it with a
`BLOCKED` outcome naming the reason — it takes no action at all, the
claim's silent default. -/
theorem C4_counterexample :
    (parseBody "ORB_QQQ_ENTRY_SHORT" none).event = "ENTRY_SHORT"
    ∧ (parseBody "ORB_QQQ_ENTRY_SHORT" none).data = none
    ∧ (webhook 0 "ORB_QQQ_ENTRY_SHORT" none sampleBroker ⟨some 0, 0, 0⟩).detail
        = Detail.noAction
    ∧ (webhook 0 "ORB_QQQ_ENTRY_SHORT" none sampleBroker ⟨some 0, 0, 0⟩).detail.action
        ≠ Action.BLOCKED
    ∧ (webhook 0 "ORB_QQQ_ENTRY_SHORT" none sampleBroker ⟨some 0, 0, 0⟩).submits = [] := by
  decide

/-- Witness for C4 (amended) at spec scenario E: a JSON `ENTRY_SHORT` with
`orHigh` missing is rejected with the missing-price detail, no order, no
ledger change. -/
theorem C4_price_validation_witness :
    dispatch sigE sampleBroker ⟨some 0, 0, 0⟩
      = ⟨⟨some 0, 0, 0⟩, .missingPriceData, [], [], []⟩ :=
  (C4_price_validation sigE sampleBroker ⟨some 0, 0, 0⟩ (Or.inr rfl) (by decide)
    (by decide)).1 dE rfl rfl

/-- Counterexample to C5 as stated: a `PARTIAL_EXIT` with no open position
(the lookup raises position-does-not-exist) yields the partial-exit error —
outcome `ERROR`, not `BLOCKED` — though indeed no order is submitted. -/
theorem C5_counterexample :
    (dispatch ⟨"PARTIAL_EXIT", "QQQ", none, none⟩ noPositionBroker
        ⟨some 0, 0, 0⟩).detail
      = Detail.partialExitError "QQQ" "position does not exist"
    ∧ (dispatch ⟨"PARTIAL_EXIT", "QQQ", none, none⟩ noPositionBroker
        ⟨some 0, 0, 0⟩).detail.action = Action.ERROR
    ∧ (dispatch ⟨"PARTIAL_EXIT", "QQQ", none, none⟩ noPositionBroker
        ⟨some 0, 0, 0⟩).detail.action ≠ Action.BLOCKED
    ∧ (dispatch ⟨"PARTIAL_EXIT", "QQQ", none, none⟩ noPositionBroker
        ⟨some 0, 0, 0⟩).submits = [] := by
  decide

/-- Witness for C5 (amended) at spec scenario C: a 10-unit long position is
half-closed by a 5-unit sell order. -/
theorem C5_partial_exit_witness :
    (dispatch ⟨"PARTIAL_EXIT", "QQQ", none, none⟩ sampleBroker
        ⟨some 0, 0, 0⟩).submits
      = [⟨"QQQ", 5, OrderSide.sell, TimeInForce.day⟩] := by
  have h := (C5_partial_exit ⟨"PARTIAL_EXIT", "QQQ", none, none⟩ sampleBroker
    ⟨some 0, 0, 0⟩ rfl).2.1 10 "long" rfl (by decide)
  exact h.trans (by decide)

/-- Witness for C6 on a concrete crypto partial exit: the normalization
fact and the normalized position lookup, extracted from the claim
theorem. -/
theorem C6_symbol_normalization_witness :
    symbol_for_positions "BTC/USD" = "BTCUSD"
    ∧ (∀ s ∈ (dispatch ⟨"PARTIAL_EXIT", "BTC/USD", none, none⟩ sampleBroker
        ⟨some 0, 0, 0⟩).posLookups, s = symbol_for_positions "BTC/USD") :=
  ⟨(C6_symbol_normalization ⟨"PARTIAL_EXIT", "BTC/USD", none, none⟩ sampleBroker
      ⟨some 0, 0, 0⟩).2.2.2.1,
    (C6_symbol_normalization ⟨"PARTIAL_EXIT", "BTC/USD", none, none⟩ sampleBroker
      ⟨some 0, 0, 0⟩).2.1⟩

/-- Witness for C7: on the successfully placed scenario-A entry the trade
count goes from 0 to 1; the same entry against a broker whose equity fetch
raises ends in the `ERROR` outcome carrying that message, with the ledger
untouched. -/
theorem C7_trade_count_and_errors_witness :
    (dispatch sigA sampleBroker ⟨some 0, 0, 0⟩).ledger.trade_count = 1
    ∧ ((dispatch sigA equityFailBroker ⟨some 0, 0, 0⟩).detail
        = Detail.tradingError "account unavailable"
      ∧ (dispatch sigA equityFailBroker ⟨some 0, 0, 0⟩).detail.action = Action.ERROR
      ∧ (dispatch sigA equityFailBroker ⟨some 0, 0, 0⟩).ledger = ⟨some 0, 0, 0⟩) := by
  constructor
  · have h := (C7_trade_count_and_errors sigA sampleBroker ⟨some 0, 0, 0⟩).1
    exact h.trans (by decide)
  · have h := (C7_trade_count_and_errors sigA equityFailBroker
      ⟨some 0, 0, 0⟩).2.2.2.2.1 dA 100 101 99 (Or.inl rfl) rfl (by decide)
      (by decide) rfl (by decide) (by decide)
    exact h.1 "account unavailable" rfl

/-- Witness for C8 at scenario D: the plain-text body `ORB_QQQ_EXIT` parses
to a `FINAL_EXIT` on `QQQ`. -/
theorem C8_parser_fallback_witness :
    parseBody "ORB_QQQ_EXIT" none = ⟨"FINAL_EXIT", "QQQ", none, none⟩ := by
  have h := C8_parser_fallback "ORB_QQQ_EXIT" none
  exact h.1.trans (h.2.2.2.2.1 (by decide) (by decide) (by decide))

/-- Witness for C9 at a concrete ledger: a stale day is reset to zeroed
counters, and the reset is idempotent. -/
theorem C9_reset_idempotent_witness :
    reset_daily_if_needed 5 ⟨some 4, -1, 2⟩ = ⟨some 5, 0, 0⟩
    ∧ reset_daily_if_needed 5 (reset_daily_if_needed 5 ⟨some 4, -1, 2⟩)
        = reset_daily_if_needed 5 ⟨some 4, -1, 2⟩ :=
  ⟨(C9_reset_idempotent 5 ⟨some 4, -1, 2⟩ "" none sampleBroker).2.1 (by decide),
    (C9_reset_idempotent 5 ⟨some 4, -1, 2⟩ "" none sampleBroker).1⟩

/-- Witness for C10: a failing close on a `STOP_PHASE1` final exit leaves a
non-trivial ledger untouched and reports the close-failure error. -/
theorem C10_close_failure_preserves_ledger_witness :
    (dispatch ⟨"FINAL_EXIT", "BTC/USD", some "STOP_PHASE1", none⟩ closeFailBroker
        ⟨some 3, -1, 2⟩).ledger = ⟨some 3, -1, 2⟩
    ∧ (dispatch ⟨"FINAL_EXIT", "BTC/USD", some "STOP_PHASE1", none⟩ closeFailBroker
        ⟨some 3, -1, 2⟩).detail
      = Detail.finalExitError "BTC/USD" (symbol_for_positions "BTC/USD") "connection lost" :=
  C10_close_failure_preserves_ledger ⟨"FINAL_EXIT", "BTC/USD", some "STOP_PHASE1", none⟩
    closeFailBroker ⟨some 3, -1, 2⟩ "connection lost" rfl rfl

end ConcreteRuns

end OrbBot
